import Mathlib

/-!
Verification of the MinIO HTTP facade (server/main.go and its variant).

The repository is a small Go program: a startup phase (connect-retry loop,
bucket provisioning) followed by three HTTP handlers (upload, download, list)
that forward to a MinIO storage client. This file shallowly embeds:

* the three handlers, as pure functions over an abstract storage backend,
  returning the sequence of calls they perform on the `http.ResponseWriter`
  together with the list of storage-backend calls they issue;
* the startup sequence of `main`, as trace-producing functions driven by
  oracles giving the outcome of each `minio.New`, `BucketExists` and
  `MakeBucket` call.

The minio-go client and Go's `net/http` are external libraries, not part of
this repository; their observable behavior is modelled abstractly (backend
results are arbitrary oracle outcomes) or from their documented semantics
(the response status is committed by the first `WriteHeader` or body `Write`;
later `WriteHeader` calls are superfluous and ignored).
-/

namespace MinioFacade

/-- Object contents: a sequence of bytes (uninterpreted naturals). -/
abbrev Bytes := List Nat

/-- A chunk written to the HTTP response body: either a Go string write
(`fmt.Fprintf`, `fmt.Fprintln`, `http.Error`) or raw object bytes
(`io.Copy`). -/
inductive Chunk
  | str (s : String)
  | bytes (b : Bytes)
  deriving DecidableEq

/-- The calls a handler performs on its `http.ResponseWriter`, in order. -/
inductive WEvent
  | setHeader (name value : String)
  | writeHeader (code : Nat)
  | write (c : Chunk)
  deriving DecidableEq

/-- The calls a handler issues to the storage backend. -/
inductive BackendCall
  | put (bucket key : String) (body : Bytes)
  | get (bucket key : String)
  | listObjects (bucket : String)
  deriving DecidableEq

/-- The HTTP status actually sent, per Go `net/http` semantics: the status is
committed by the first `WriteHeader` call or by the first body `Write`
(which commits an implicit 200); any later `WriteHeader` is a superfluous
call and is ignored. A handler that returns without writing gets 200. -/
def respStatus : List WEvent → Nat
  | [] => 200
  | .setHeader _ _ :: rest => respStatus rest
  | .writeHeader c :: _ => c
  | .write _ :: _ => 200

/-- The response body: the concatenation (as a chunk list) of everything the
handler wrote. `net/http` never drops body writes. -/
def respBody (evs : List WEvent) : List Chunk :=
  evs.filterMap fun e =>
    match e with
    | .write c => some c
    | _ => none

/-- Models Go `http.Error w msg code`: sets the plain-text headers, writes the
status code, then writes the message followed by a newline. -/
def httpError (msg : String) (code : Nat) : List WEvent :=
  [.setHeader "Content-Type" "text/plain; charset=utf-8",
   .setHeader "X-Content-Type-Options" "nosniff",
   .writeHeader code,
   .write (.str (msg ++ "\n"))]

/-- Models Go `r.URL.Query().Get "key"`: returns the empty string when the
parameter is absent. -/
def queryGet : Option String → String
  | none => ""
  | some v => v

/-- A `*minio.Object` as `io.Copy` observes it: the bytes it delivers before
the stream either ends cleanly (`readErr = none`) or fails mid-copy
(`readErr = some e`; the handler ignores the error `io.Copy` returns). -/
structure ObjectStream where
  delivered : Bytes
  readErr : Option String
  deriving DecidableEq

/-- The storage-backend operations the handlers use, over backend state `σ`.
Results are the environment's (minio server's) choices: `putObject` returns
the new backend state or an error, `getObject` an object stream or an error,
`listObjects` the channel of entries (`Except.ok` an object key,
`Except.error` an entry whose `Err` field is set). -/
structure Backend (σ : Type) where
  putObject : σ → String → String → Bytes → Except String σ
  getObject : σ → String → String → Except String ObjectStream
  listObjects : σ → String → List (Except String String)

/-- What a handler invocation produced: the ResponseWriter events, the
backend calls it made, and the backend state afterwards. -/
structure HResult (σ : Type) where
  events : List WEvent
  calls : List BackendCall
  state : σ
  deriving DecidableEq

/-- Embeds `uploadHandler` (server/main.go:84-99): reject a missing or empty
`key` with 400 and no storage call; otherwise `PutObject` the request body,
answering 500 with the cause on failure, or the success message. -/
def uploadHandler {σ : Type} (B : Backend σ) (bucket : String) (s : σ)
    (keyParam : Option String) (reqBody : Bytes) : HResult σ :=
  let objectName := queryGet keyParam
  if objectName = "" then
    { events := httpError "Missing \x27key\x27 query parameter" 400,
      calls := [], state := s }
  else
    match B.putObject s bucket objectName reqBody with
    | .error e =>
      { events := httpError ("Upload failed: " ++ e) 500,
        calls := [.put bucket objectName reqBody], state := s }
    | .ok s2 =>
      { events := [.write (.str ("Uploaded " ++ objectName ++ " successfully\n"))],
        calls := [.put bucket objectName reqBody], state := s2 }

/-- Embeds `downloadHandler` (server/main.go:101-119): reject a missing or
empty `key` with 400 and no storage call; otherwise `GetObject`, answering
500 with the cause if it errors, else set `Content-Disposition: inline`,
write the 200 status, and `io.Copy` the stream (whose bytes are whatever the
stream delivers; a mid-copy read error is ignored). -/
def downloadHandler {σ : Type} (B : Backend σ) (bucket : String) (s : σ)
    (keyParam : Option String) : HResult σ :=
  let objectName := queryGet keyParam
  if objectName = "" then
    { events := httpError "Missing \x27key\x27 query parameter" 400,
      calls := [], state := s }
  else
    match B.getObject s bucket objectName with
    | .error e =>
      { events := httpError ("Download failed: " ++ e) 500,
        calls := [.get bucket objectName], state := s }
    | .ok obj =>
      { events := [.setHeader "Content-Disposition" "inline",
                   .writeHeader 200,
                   .write (.bytes obj.delivered)],
        calls := [.get bucket objectName], state := s }

/-- The `for obj := range ... ListObjects` loop of `listHandler`
(server/main.go:121-130): each error-free entry is written as its key plus a
newline; the first entry with `Err` set makes the handler call `http.Error`
with 500 and return, so no later entry is processed. -/
def listLoop : List (Except String String) → List WEvent
  | [] => []
  | .error e :: _ => httpError e 500
  | .ok k :: rest => .write (.str (k ++ "\n")) :: listLoop rest

/-- Embeds `listHandler` (server/main.go:121-130). -/
def listHandler {σ : Type} (B : Backend σ) (bucket : String) (s : σ) :
    HResult σ :=
  { events := listLoop (B.listObjects s bucket),
    calls := [.listObjects bucket], state := s }

/-- Modelled from the spec: the external object-storage service behind the
minio-go client (not part of this repository). A single bucket's contents as
an association list; `PutObject` stores the new content for the key (later
puts shadow earlier ones), `GetObject` returns the stored bytes or a
key-does-not-exist error, `ListObjects` yields each stored key. -/
def storeGet (s : List (String × Bytes)) (k : String) : Option Bytes :=
  match s with
  | [] => none
  | (k2, c) :: rest => if k2 = k then some c else storeGet rest k

/-- Modelled from the spec: the ideal single-bucket backend (see `storeGet`).
The bucket argument is ignored because the handlers only ever pass the one
configured bucket. -/
def storeBackend : Backend (List (String × Bytes)) where
  putObject s _bucket k c := .ok ((k, c) :: s)
  getObject s _bucket k :=
    match storeGet s k with
    | some c => .ok { delivered := c, readErr := none }
    | none => .error "The specified key does not exist."
  listObjects s _bucket := (s.map Prod.fst).map Except.ok

theorem respStatus_httpError (msg : String) (code : Nat) :
    respStatus (httpError msg code) = code := rfl

/-- Claim C1: a request to /upload or /download whose key query parameter is
absent (`none`) or empty (`some ""`) is answered with status 400 and the
handler issues no storage-backend call (and leaves the backend state
unchanged). -/
theorem upload_download_missing_key {σ : Type} (B : Backend σ) (bucket : String)
    (s : σ) (keyParam : Option String) (reqBody : Bytes)
    (h : keyParam = none ∨ keyParam = some "") :
    respStatus (uploadHandler B bucket s keyParam reqBody).events = 400 ∧
    (uploadHandler B bucket s keyParam reqBody).calls = [] ∧
    (uploadHandler B bucket s keyParam reqBody).state = s ∧
    respStatus (downloadHandler B bucket s keyParam).events = 400 ∧
    (downloadHandler B bucket s keyParam).calls = [] ∧
    (downloadHandler B bucket s keyParam).state = s := by
  have hq : queryGet keyParam = "" := by
    rcases h with h | h <;> simp [h, queryGet]
  simp [uploadHandler, downloadHandler, hq, respStatus_httpError]

/-- Witness for C1 at a concrete request: key parameter absent, backend the
ideal store, bucket "files", empty store, body [1, 2]. -/
theorem upload_download_missing_key_witness :
    respStatus (uploadHandler storeBackend "files" [] none [1, 2]).events = 400 ∧
    (uploadHandler storeBackend "files" [] none [1, 2]).calls = [] ∧
    (uploadHandler storeBackend "files" [] none [1, 2]).state = [] ∧
    respStatus (downloadHandler storeBackend "files" [] none).events = 400 ∧
    (downloadHandler storeBackend "files" [] none).calls = [] ∧
    (downloadHandler storeBackend "files" [] none).state = [] :=
  upload_download_missing_key storeBackend "files" [] none [1, 2] (Or.inl rfl)

/-- Claim C2: round-trip. For any byte sequence (the empty one included) and
any non-empty key, the upload succeeds (status 200) and a download of the
same key against the resulting backend state answers 200 with exactly the
uploaded bytes as the body. -/
theorem upload_download_roundtrip (c : Bytes) (k : String)
    (bucket : String) (s : List (String × Bytes)) (hk : k ≠ "") :
    respStatus (uploadHandler storeBackend bucket s (some k) c).events = 200 ∧
    respStatus (downloadHandler storeBackend bucket
      (uploadHandler storeBackend bucket s (some k) c).state (some k)).events = 200 ∧
    respBody (downloadHandler storeBackend bucket
      (uploadHandler storeBackend bucket s (some k) c).state (some k)).events =
      [Chunk.bytes c] := by
  simp [uploadHandler, downloadHandler, queryGet, hk, storeBackend, storeGet,
    respStatus, respBody]

/-- Witness for C2: binary content [0, 255, 7] under key "a/b" on an empty
store round-trips. -/
theorem upload_download_roundtrip_witness :
    respStatus (uploadHandler storeBackend "files" [] (some "a/b") [0, 255, 7]).events = 200 ∧
    respStatus (downloadHandler storeBackend "files"
      (uploadHandler storeBackend "files" [] (some "a/b") [0, 255, 7]).state
      (some "a/b")).events = 200 ∧
    respBody (downloadHandler storeBackend "files"
      (uploadHandler storeBackend "files" [] (some "a/b") [0, 255, 7]).state
      (some "a/b")).events = [Chunk.bytes [0, 255, 7]] :=
  upload_download_roundtrip [0, 255, 7] "a/b" "files" [] (by decide)

/-- Claim C9: last write wins. Uploading `c1` then `c2` under the same
non-empty key makes any subsequent download of that key answer 200 with
exactly `c2` (no merge); downloads do not change the backend state, so every
later download answers the same. -/
theorem upload_twice_last_write_wins (c1 c2 : Bytes) (k : String)
    (bucket : String) (s : List (String × Bytes)) (hk : k ≠ "") :
    respStatus (downloadHandler storeBackend bucket
      (uploadHandler storeBackend bucket
        (uploadHandler storeBackend bucket s (some k) c1).state
        (some k) c2).state (some k)).events = 200 ∧
    respBody (downloadHandler storeBackend bucket
      (uploadHandler storeBackend bucket
        (uploadHandler storeBackend bucket s (some k) c1).state
        (some k) c2).state (some k)).events = [Chunk.bytes c2] ∧
    (downloadHandler storeBackend bucket
      (uploadHandler storeBackend bucket
        (uploadHandler storeBackend bucket s (some k) c1).state
        (some k) c2).state (some k)).state =
      (uploadHandler storeBackend bucket
        (uploadHandler storeBackend bucket s (some k) c1).state
        (some k) c2).state := by
  simp [uploadHandler, downloadHandler, queryGet, hk, storeBackend, storeGet,
    respStatus, respBody]

/-- Witness for C9: key "k", first [1] then [2, 3]; the download returns
[2, 3]. -/
theorem upload_twice_last_write_wins_witness :
    respStatus (downloadHandler storeBackend "files"
      (uploadHandler storeBackend "files"
        (uploadHandler storeBackend "files" [] (some "k") [1]).state
        (some "k") [2, 3]).state (some "k")).events = 200 ∧
    respBody (downloadHandler storeBackend "files"
      (uploadHandler storeBackend "files"
        (uploadHandler storeBackend "files" [] (some "k") [1]).state
        (some "k") [2, 3]).state (some "k")).events = [Chunk.bytes [2, 3]] ∧
    (downloadHandler storeBackend "files"
      (uploadHandler storeBackend "files"
        (uploadHandler storeBackend "files" [] (some "k") [1]).state
        (some "k") [2, 3]).state (some "k")).state =
      (uploadHandler storeBackend "files"
        (uploadHandler storeBackend "files" [] (some "k") [1]).state
        (some "k") [2, 3]).state :=
  upload_twice_last_write_wins [1] [2, 3] "k" "files" [] (by decide)

/-- Claim C3: when the backend reports an error for `GetObject` of a
non-empty key (key-not-found is surfaced by the backend as an error), the
download response has status exactly 500 — a 500-class status, not 404 — and
its body contains the underlying cause. -/
theorem download_backend_error_is_500 {σ : Type} (B : Backend σ)
    (bucket : String) (s : σ) (k e : String) (hk : k ≠ "")
    (herr : B.getObject s bucket k = Except.error e) :
    respStatus (downloadHandler B bucket s (some k)).events = 500 ∧
    500 ≤ respStatus (downloadHandler B bucket s (some k)).events ∧
    respStatus (downloadHandler B bucket s (some k)).events < 600 ∧
    respStatus (downloadHandler B bucket s (some k)).events ≠ 404 ∧
    ∃ pre post, respBody (downloadHandler B bucket s (some k)).events =
      [Chunk.str (pre ++ e ++ post)] := by
  refine ⟨?_, ?_, ?_, ?_, "Download failed: ", "\n", ?_⟩ <;>
    simp [downloadHandler, queryGet, hk, herr, respStatus, respBody, httpError]

/-- Witness for C3: on the ideal store backend with an empty store, the key
"missing" does not exist, the backend reports the error, and the download
answers 500 with the cause in the body. -/
theorem download_backend_error_is_500_witness :
    respStatus (downloadHandler storeBackend "files" [] (some "missing")).events = 500 ∧
    500 ≤ respStatus (downloadHandler storeBackend "files" [] (some "missing")).events ∧
    respStatus (downloadHandler storeBackend "files" [] (some "missing")).events < 600 ∧
    respStatus (downloadHandler storeBackend "files" [] (some "missing")).events ≠ 404 ∧
    ∃ pre post, respBody (downloadHandler storeBackend "files" [] (some "missing")).events =
      [Chunk.str (pre ++ "The specified key does not exist." ++ post)] :=
  download_backend_error_is_500 storeBackend "files" [] "missing"
    "The specified key does not exist." (by decide) rfl

/-- Claim C10: when `GetObject` succeeds but the returned stream fails during
the copy, the handler has already set `Content-Disposition: inline` and
written status 200 before any object byte, so the response keeps status 200
and carries the possibly-truncated delivered bytes; the copy error is
ignored. The full event trace pins the ordering. -/
theorem download_copy_failure_keeps_200 {σ : Type} (B : Backend σ)
    (bucket : String) (s : σ) (k e : String) (obj : ObjectStream)
    (hk : k ≠ "") (hget : B.getObject s bucket k = Except.ok obj)
    (hfail : obj.readErr = some e) :
    (downloadHandler B bucket s (some k)).events =
      [WEvent.setHeader "Content-Disposition" "inline",
       WEvent.writeHeader 200,
       WEvent.write (Chunk.bytes obj.delivered)] ∧
    respStatus (downloadHandler B bucket s (some k)).events = 200 ∧
    respBody (downloadHandler B bucket s (some k)).events =
      [Chunk.bytes obj.delivered] := by
  simp [downloadHandler, queryGet, hk, hget, respStatus, respBody]

/-- A backend over trivial state whose `GetObject` yields a stream that
delivers two bytes and then fails with a connection-reset error. -/
def truncBackend : Backend Unit where
  putObject _ _ _ _ := Except.ok ()
  getObject _ _ _ := Except.ok { delivered := [1, 2], readErr := some "connection reset" }
  listObjects _ _ := []

/-- Witness for C10: on `truncBackend`, the download of key "k" answers 200
with the two delivered bytes despite the mid-copy failure. -/
theorem download_copy_failure_keeps_200_witness :
    (downloadHandler truncBackend "files" () (some "k")).events =
      [WEvent.setHeader "Content-Disposition" "inline",
       WEvent.writeHeader 200,
       WEvent.write (Chunk.bytes [1, 2])] ∧
    respStatus (downloadHandler truncBackend "files" () (some "k")).events = 200 ∧
    respBody (downloadHandler truncBackend "files" () (some "k")).events =
      [Chunk.bytes [1, 2]] :=
  download_copy_failure_keeps_200 truncBackend "files" () "k" "connection reset"
    { delivered := [1, 2], readErr := some "connection reset" }
    (by decide) rfl rfl

theorem listLoop_ok_append (keys : List String) (e : String)
    (rest : List (Except String String)) :
    listLoop (keys.map Except.ok ++ Except.error e :: rest) =
      (keys.map fun k => WEvent.write (Chunk.str (k ++ "\n"))) ++ httpError e 500 := by
  induction keys with
  | nil => rfl
  | cons k keys ih => simp [listLoop, ih]

/-- A backend over trivial state whose `ListObjects` channel yields one key
and then an entry whose `Err` field is set. -/
def errListBackend : Backend Unit where
  putObject _ _ _ _ := Except.ok ()
  getObject _ _ _ := Except.error "unreachable"
  listObjects _ _ := [Except.ok "a", Except.error "boom"]

/-- Counterexample to claim C8 as stated: on a backend whose enumeration
yields the key "a" and then an error, the /list response's status is 200,
not a 500-class server error — the first written line already committed the
implicit 200 status, so the later `WriteHeader 500` issued by `http.Error`
is superfluous and ignored by `net/http`. -/
theorem list_error_after_key_not_server_error :
    respStatus (listHandler errListBackend "files" ()).events = 200 ∧
    ¬ (500 ≤ respStatus (listHandler errListBackend "files" ()).events ∧
       respStatus (listHandler errListBackend "files" ()).events < 600) := by
  constructor
  · rfl
  · intro h
    simp [listHandler, errListBackend, listLoop, respStatus] at h

/-- Claim C8 (amended): for a /list request whose enumeration yields `k`
keys and then an error, the handler writes the `k` keys one per line in
backend order, then calls `http.Error` with code 500 carrying the error
message, and processes no further entry; the `k` already-written lines
remain in the response body followed by the error message (no buffering or
rollback). The status actually sent is 500 only when the error comes before
any key (`keys = []`); otherwise the first written line already committed
status 200 and the later `WriteHeader 500` is ignored. -/
theorem list_partial_error_amended {σ : Type} (B : Backend σ)
    (bucket : String) (s : σ) (keys : List String) (e : String)
    (rest : List (Except String String))
    (hlist : B.listObjects s bucket = keys.map Except.ok ++ Except.error e :: rest) :
    (listHandler B bucket s).events =
      (keys.map fun k => WEvent.write (Chunk.str (k ++ "\n"))) ++ httpError e 500 ∧
    respBody (listHandler B bucket s).events =
      (keys.map fun k => Chunk.str (k ++ "\n")) ++ [Chunk.str (e ++ "\n")] ∧
    respStatus (listHandler B bucket s).events =
      (if keys = [] then 500 else 200) := by
  have hev : (listHandler B bucket s).events =
      (keys.map fun k => WEvent.write (Chunk.str (k ++ "\n"))) ++ httpError e 500 := by
    simp [listHandler, hlist, listLoop_ok_append]
  have hwrites : ∀ ks : List String,
      respBody (ks.map fun k => WEvent.write (Chunk.str (k ++ "\n"))) =
        ks.map fun k => Chunk.str (k ++ "\n") := by
    intro ks
    induction ks with
    | nil => rfl
    | cons k ks ih => simpa [respBody] using ih
  refine ⟨hev, ?_, ?_⟩
  · rw [hev]
    simp only [respBody, List.filterMap_append]
    rw [← respBody, ← respBody, hwrites]
    rfl
  · rw [hev]
    cases keys with
    | nil => rfl
    | cons k keys => rfl

/-- Witness for the amended C8 on `errListBackend`: the body keeps the line
for "a" followed by the error message, and the status is 200 since a key
preceded the error. -/
theorem list_partial_error_amended_witness :
    (listHandler errListBackend "files" ()).events =
      (["a"].map fun k => WEvent.write (Chunk.str (k ++ "\n"))) ++ httpError "boom" 500 ∧
    respBody (listHandler errListBackend "files" ()).events =
      (["a"].map fun k => Chunk.str (k ++ "\n")) ++ [Chunk.str ("boom" ++ "\n")] ∧
    respStatus (listHandler errListBackend "files" ()).events =
      (if ["a"] = ([] : List String) then 500 else 200) :=
  list_partial_error_amended errListBackend "files" () ["a"] "boom" [] rfl

/-- An event of the startup sequence of `main`: a `minio.New` attempt, a
`BucketExists` call, a `MakeBucket` call, a `time.Sleep` (seconds), a
`log.Fatal*` (which terminates the process), or the start of the HTTP
serving phase (`http.ListenAndServe`). -/
inductive TraceEv
  | connectAttempt (n : Nat)
  | bucketCheck (i : Nat)
  | makeBucketCall
  | sleep (secs : Nat)
  | fatal (msg : String)
  | serveHTTP
  deriving DecidableEq

/-- Whether a startup event is a fatal process termination. -/
def TraceEv.isFatalEv : TraceEv → Bool
  | .fatal _ => true
  | _ => false

/-- Embeds the unbounded connect-retry loop of `main`
(server/main.go:39-49): attempt `n` runs `minio.New`, whose outcome the
oracle `co` gives (`some ()` means the client was constructed, `none` an
error); on failure the loop sleeps 2 seconds and retries with no bound and
no fatal branch. The loop is observed for `fuel` iterations starting at
attempt `i`; the Bool reports whether a client was constructed within the
observed iterations. -/
def connectFrom (co : Nat → Option Unit) (i : Nat) : Nat → List TraceEv × Bool
  | 0 => ([], false)
  | fuel + 1 =>
    match co i with
    | some _ => ([.connectAttempt i], true)
    | none =>
      let r := connectFrom co (i + 1) fuel
      (.connectAttempt i :: .sleep 2 :: r.1, r.2)

/-- Embeds the bounded bucket-provisioning loop of `main`
(server/main.go:54-74), `for i := 0; i < 10; i++`, with `rem` the number of
loop iterations left (`10 - i`). The oracle `be` gives the outcome of each
`BucketExists` call, `mk` the outcome of `MakeBucket`. On a successful check
the loop creates the bucket when it does not exist (fatally on creation
failure) and breaks; on a failed check it sleeps 2 seconds and, at `i = 9`,
terminates fatally with the last failure. -/
def ensureFrom (be : Nat → Except String Bool) (mk : Except String Unit)
    (i : Nat) : Nat → List TraceEv
  | 0 => []
  | rem + 1 =>
    .bucketCheck i ::
    match be i with
    | .ok b =>
      if !b then
        match mk with
        | .error e => [.makeBucketCall, .fatal ("MakeBucket error: " ++ e)]
        | .ok _ => [.makeBucketCall]
      else []
    | .error e =>
      .sleep 2 ::
      if i = 9 then
        [.fatal ("Failed to connect to MinIO after 10 attempts: " ++ e)]
      else
        ensureFrom be mk (i + 1) rem

/-- The bounded bucket-provisioning loop, started at `i = 0` with its 10
iterations (server/main.go:54-74). -/
def ensureBucket (be : Nat → Except String Bool) (mk : Except String Unit) :
    List TraceEv :=
  ensureFrom be mk 0 10

/-- Embeds the single-attempt bucket provisioning of the variant `main`
(src/unnamed/part_000:47-59): one `BucketExists` call, fatal if it errors;
create the bucket when absent, fatal if creation errors. -/
def ensureBucketSingle (be0 : Except String Bool) (mk : Except String Unit) :
    List TraceEv :=
  match be0 with
  | .error e => [.bucketCheck 0, .fatal ("BucketExists error: " ++ e)]
  | .ok b =>
    if !b then
      match mk with
      | .error e => [.bucketCheck 0, .makeBucketCall,
                     .fatal ("MakeBucket error: " ++ e)]
      | .ok _ => [.bucketCheck 0, .makeBucketCall]
    else [.bucketCheck 0]

/-- What the startup of `main` produced: its event trace and whether the
global `minioClient` was set (non-nil). -/
structure MainResult where
  trace : List TraceEv
  clientSet : Bool
  deriving DecidableEq

/-- Embeds the startup sequence of `main` (server/main.go:39-82): the
connect-retry loop observed for `fuel` iterations, then — only once a client
is constructed — the bounded bucket provisioning; `log.Fatalf` terminates
the process, so nothing runs after a fatal event, and otherwise the HTTP
serving phase starts. Handlers are registered on the serving phase only, so
in this sequential startup no handler can run before `serveHTTP`. -/
def mainStartup (co : Nat → Option Unit) (fuel : Nat)
    (be : Nat → Except String Bool) (mk : Except String Unit) : MainResult :=
  let c := connectFrom co 0 fuel
  if c.2 then
    let et := ensureBucket be mk
    if et.any TraceEv.isFatalEv then
      { trace := c.1 ++ et, clientSet := true }
    else
      { trace := c.1 ++ et ++ [.serveHTTP], clientSet := true }
  else
    { trace := c.1, clientSet := false }

/-- The bucket was verified during bounded provisioning: some check among
the 10 either reported the bucket exists, or reported it absent and the
creation succeeded. -/
def bucketVerified (be : Nat → Except String Bool) (mk : Except String Unit) : Prop :=
  ∃ i, i < 10 ∧ (be i = Except.ok true ∨
    (be i = Except.ok false ∧ mk = Except.ok ()))

theorem serveHTTP_not_in_connectFrom (co : Nat → Option Unit) :
    ∀ fuel i, TraceEv.serveHTTP ∉ (connectFrom co i fuel).1 := by
  intro fuel
  induction fuel with
  | zero => intro i; simp [connectFrom]
  | succ fuel ih =>
    intro i
    cases h : co i with
    | some u => simp [connectFrom, h]
    | none => simp [connectFrom, h]; exact ih (i + 1)

theorem fatal_not_in_connectFrom (co : Nat → Option Unit) :
    ∀ fuel i m, TraceEv.fatal m ∉ (connectFrom co i fuel).1 := by
  intro fuel
  induction fuel with
  | zero => intro i m; simp [connectFrom]
  | succ fuel ih =>
    intro i m
    cases h : co i with
    | some u => simp [connectFrom, h]
    | none => simp [connectFrom, h]; exact ih (i + 1) m

theorem serveHTTP_not_in_ensureFrom (be : Nat → Except String Bool)
    (mk : Except String Unit) :
    ∀ rem i, TraceEv.serveHTTP ∉ ensureFrom be mk i rem := by
  intro rem
  induction rem with
  | zero => intro i; simp [ensureFrom]
  | succ rem ih =>
    intro i
    simp only [ensureFrom]
    cases h : be i with
    | ok b =>
      cases b with
      | false => cases mk <;> simp
      | true => simp
    | error e =>
      by_cases hi : i = 9 <;> simp [hi]
      exact ih (i + 1)

@[simp] theorem isFatalEv_connectAttempt (n : Nat) :
    TraceEv.isFatalEv (.connectAttempt n) = false := rfl

@[simp] theorem isFatalEv_bucketCheck (i : Nat) :
    TraceEv.isFatalEv (.bucketCheck i) = false := rfl

@[simp] theorem isFatalEv_makeBucketCall :
    TraceEv.isFatalEv .makeBucketCall = false := rfl

@[simp] theorem isFatalEv_sleep (s : Nat) :
    TraceEv.isFatalEv (.sleep s) = false := rfl

@[simp] theorem isFatalEv_fatal (m : String) :
    TraceEv.isFatalEv (.fatal m) = true := rfl

@[simp] theorem isFatalEv_serveHTTP :
    TraceEv.isFatalEv .serveHTTP = false := rfl

theorem noFatal_of_any_false {t : List TraceEv}
    (h : t.any TraceEv.isFatalEv = false) : ∀ m, TraceEv.fatal m ∉ t := by
  intro m hmem
  have ht : t.any TraceEv.isFatalEv = true :=
    List.any_eq_true.mpr ⟨TraceEv.fatal m, hmem, rfl⟩
  rw [h] at ht
  exact Bool.false_ne_true ht

theorem any_false_of_noFatal {t : List TraceEv}
    (h : ∀ m, TraceEv.fatal m ∉ t) : t.any TraceEv.isFatalEv = false := by
  cases ha : t.any TraceEv.isFatalEv with
  | false => rfl
  | true =>
    exfalso
    obtain ⟨x, hx, hpx⟩ := List.any_eq_true.mp ha
    cases x with
    | fatal m => exact h m hx
    | connectAttempt n => simp at hpx
    | bucketCheck i => simp at hpx
    | makeBucketCall => simp at hpx
    | sleep s => simp at hpx
    | serveHTTP => simp at hpx

theorem ensureFrom_break_on_ok_true (be : Nat → Except String Bool)
    (mk : Except String Unit) :
    ∀ rem i0 i, i0 + rem = 10 → i0 ≤ i → i < 10 →
      (∀ j, i0 ≤ j → j < i → ∃ e, be j = Except.error e) →
      be i = Except.ok true →
      TraceEv.makeBucketCall ∉ ensureFrom be mk i0 rem ∧
      ∀ m, TraceEv.fatal m ∉ ensureFrom be mk i0 rem := by
  intro rem
  induction rem with
  | zero =>
    intro i0 i h1 h2 h3 _ _
    omega
  | succ rem ih =>
    intro i0 i h1 h2 h3 hfail hok
    rcases Nat.eq_or_lt_of_le h2 with heq | hlt
    · subst heq
      simp [ensureFrom, hok]
    · obtain ⟨e, he⟩ := hfail i0 (Nat.le_refl _) hlt
      have hi9 : ¬ (i0 = 9) := by omega
      have hrec := ih (i0 + 1) i (by omega) hlt h3
        (fun j hj1 hj2 => hfail j (by omega) hj2) hok
      have heq2 : ensureFrom be mk i0 (rem + 1) =
          .bucketCheck i0 :: .sleep 2 :: ensureFrom be mk (i0 + 1) rem := by
        simp [ensureFrom, he, hi9]
      rw [heq2]
      constructor
      · intro hmem
        rcases List.mem_cons.mp hmem with hc | hmem
        · exact TraceEv.noConfusion hc
        rcases List.mem_cons.mp hmem with hc | hmem
        · exact TraceEv.noConfusion hc
        exact hrec.1 hmem
      · intro m hmem
        rcases List.mem_cons.mp hmem with hc | hmem
        · exact TraceEv.noConfusion hc
        rcases List.mem_cons.mp hmem with hc | hmem
        · exact TraceEv.noConfusion hc
        exact hrec.2 m hmem

theorem ensureFrom_noFatal_verified (be : Nat → Except String Bool)
    (mk : Except String Unit) :
    ∀ rem i, i + rem = 10 → 1 ≤ rem →
      (∀ m, TraceEv.fatal m ∉ ensureFrom be mk i rem) →
      ∃ k, k < 10 ∧ (be k = Except.ok true ∨
        (be k = Except.ok false ∧ mk = Except.ok ())) := by
  intro rem
  induction rem with
  | zero =>
    intro i h1 h2 _
    omega
  | succ rem ih =>
    intro i h1 _ hnf
    cases hbe : be i with
    | ok b =>
      cases b with
      | true => exact ⟨i, by omega, Or.inl hbe⟩
      | false =>
        cases hmk : mk with
        | error e =>
          exact absurd (hnf ("MakeBucket error: " ++ e))
            (by simp [ensureFrom, hbe, hmk])
        | ok u =>
          cases u
          exact ⟨i, by omega, Or.inr ⟨hbe, rfl⟩⟩
    | error e =>
      by_cases hi : i = 9
      · subst hi
        exact absurd (show TraceEv.fatal ("Failed to connect to MinIO after 10 attempts: " ++ e) ∈
            ensureFrom be mk 9 (rem + 1) from by simp [ensureFrom, hbe]) (hnf _)
      · have heq2 : ensureFrom be mk i (rem + 1) =
            .bucketCheck i :: .sleep 2 :: ensureFrom be mk (i + 1) rem := by
          simp [ensureFrom, hbe, hi]
        rw [heq2] at hnf
        exact ih (i + 1) (by omega) (by omega)
          (fun m hm => hnf m (List.mem_cons_of_mem _ (List.mem_cons_of_mem _ hm)))

/-- Claim C4: bucket provisioning is idempotent. If the `BucketExists` query
succeeds at some attempt `i` (earlier attempts, if any, having failed) and
reports that the bucket already exists, the bounded provisioning loop makes
no `MakeBucket` call (so the bucket state is unchanged), raises no fatal
error — whatever `MakeBucket` would have returned — and startup proceeds to
the HTTP serving phase whenever the connect loop succeeded; the
single-attempt variant likewise performs only the one check. -/
theorem bucket_provision_idempotent (be : Nat → Except String Bool)
    (mk : Except String Unit) (i : Nat) (hi : i < 10)
    (hfail : ∀ j, j < i → ∃ e, be j = Except.error e)
    (hok : be i = Except.ok true) :
    TraceEv.makeBucketCall ∉ ensureBucket be mk ∧
    (∀ m, TraceEv.fatal m ∉ ensureBucket be mk) ∧
    (∀ co fuel, (connectFrom co 0 fuel).2 = true →
      TraceEv.serveHTTP ∈ (mainStartup co fuel be mk).trace) ∧
    ensureBucketSingle (Except.ok true) mk = [TraceEv.bucketCheck 0] := by
  have hmain := ensureFrom_break_on_ok_true be mk 10 0 i (by omega)
    (Nat.zero_le _) hi (fun j _ hj => hfail j hj) hok
  refine ⟨hmain.1, hmain.2, ?_, rfl⟩
  intro co fuel hc
  have hany : (ensureBucket be mk).any TraceEv.isFatalEv = false :=
    any_false_of_noFatal hmain.2
  simp [mainStartup, hc, hany]

/-- Witness for C4: every check reports the bucket exists (success at attempt
0), and `MakeBucket` would fail if it were ever called — yet provisioning
performs no creation call, raises no fatal error, and a one-attempt
successful connection reaches the serving phase. -/
theorem bucket_provision_idempotent_witness :
    TraceEv.makeBucketCall ∉
      ensureBucket (fun _ => Except.ok true) (Except.error "boom") ∧
    (∀ m, TraceEv.fatal m ∉
      ensureBucket (fun _ => Except.ok true) (Except.error "boom")) ∧
    (∀ co fuel, (connectFrom co 0 fuel).2 = true →
      TraceEv.serveHTTP ∈
        (mainStartup co fuel (fun _ => Except.ok true) (Except.error "boom")).trace) ∧
    ensureBucketSingle (Except.ok true) (Except.error "boom") =
      [TraceEv.bucketCheck 0] :=
  bucket_provision_idempotent (fun _ => Except.ok true) (Except.error "boom") 0
    (by decide) (fun j hj => absurd hj (Nat.not_lt_zero j)) rfl

theorem ensureFrom_step_err (be : Nat → Except String Bool)
    (mk : Except String Unit) (i : Nat) (e : String)
    (h : be i = Except.error e) (rem : Nat) :
    ensureFrom be mk i (rem + 1) =
      TraceEv.bucketCheck i :: TraceEv.sleep 2 ::
        (if i = 9 then
          [TraceEv.fatal ("Failed to connect to MinIO after 10 attempts: " ++ e)]
         else ensureFrom be mk (i + 1) rem) := by
  simp [ensureFrom, h]

theorem ensureFrom_all_fail (be : Nat → Except String Bool)
    (mk : Except String Unit) (es : Nat → String) :
    ∀ rem i, i + rem = 10 → 1 ≤ rem →
      (∀ j, i ≤ j → j < 10 → be j = Except.error (es j)) →
      ensureFrom be mk i rem =
        (List.range' i rem).flatMap
          (fun j => [TraceEv.bucketCheck j, TraceEv.sleep 2]) ++
          [TraceEv.fatal ("Failed to connect to MinIO after 10 attempts: " ++ es 9)] := by
  intro rem
  induction rem with
  | zero =>
    intro i h1 h2 _
    omega
  | succ rem ih =>
    intro i h1 _ hfail
    have hbe : be i = Except.error (es i) := hfail i (Nat.le_refl _) (by omega)
    rw [ensureFrom_step_err be mk i (es i) hbe rem]
    cases rem with
    | zero =>
      have hi : i = 9 := by omega
      subst hi
      simp [List.range'_succ]
    | succ r =>
      have hi : ¬ (i = 9) := by omega
      rw [if_neg hi,
        ih (i + 1) (by omega) (by omega) (fun j hj1 hj2 => hfail j (by omega) hj2)]
      simp [List.range'_succ]

/-- Claim C5: bounded-retry exhaustion. When every one of the 10
`BucketExists` attempts fails (attempt `i` failing with message `es i`), the
provisioning loop's trace is exactly 10 checks, each followed by the
2-second sleep, ending in a fatal termination whose message carries the last
failure `es 9`; consequently no run of `main` with such a backend ever
reaches the HTTP serving phase. -/
theorem bounded_retry_exhaustion_fatal (be : Nat → Except String Bool)
    (mk : Except String Unit) (es : Nat → String)
    (hfail : ∀ i, i < 10 → be i = Except.error (es i)) :
    ensureBucket be mk =
      (List.range' 0 10).flatMap
        (fun i => [TraceEv.bucketCheck i, TraceEv.sleep 2]) ++
        [TraceEv.fatal ("Failed to connect to MinIO after 10 attempts: " ++ es 9)] ∧
    ∀ co fuel, TraceEv.serveHTTP ∉ (mainStartup co fuel be mk).trace := by
  have htr : ensureBucket be mk =
      (List.range' 0 10).flatMap
        (fun i => [TraceEv.bucketCheck i, TraceEv.sleep 2]) ++
        [TraceEv.fatal ("Failed to connect to MinIO after 10 attempts: " ++ es 9)] :=
    ensureFrom_all_fail be mk es 10 0 (by omega) (by omega)
      (fun j _ hj => hfail j hj)
  refine ⟨htr, ?_⟩
  intro co fuel hmem
  have hany : (ensureBucket be mk).any TraceEv.isFatalEv = true := by
    refine List.any_eq_true.mpr
      ⟨TraceEv.fatal ("Failed to connect to MinIO after 10 attempts: " ++ es 9), ?_, rfl⟩
    rw [htr]
    simp
  by_cases hc : (connectFrom co 0 fuel).2 = true
  · simp only [mainStartup, hc, if_true, hany] at hmem
    simp only [Bool.true_eq_false, if_false, List.mem_append] at hmem
    rcases hmem with hmem | hmem
    · exact serveHTTP_not_in_connectFrom co fuel 0 hmem
    · exact serveHTTP_not_in_ensureFrom be mk 10 0 hmem
  · have hc2 : (connectFrom co 0 fuel).2 = false := by
      cases h2 : (connectFrom co 0 fuel).2 with
      | false => rfl
      | true => exact absurd h2 hc
    simp only [mainStartup, hc2, Bool.false_eq_true, if_false] at hmem
    exact serveHTTP_not_in_connectFrom co fuel 0 hmem

/-- Witness for C5: a backend whose checks all fail with "conn refused"
yields the exhaustion trace and (at connect fuel 1 with an always-failing
constructor) a startup that never serves. -/
theorem bounded_retry_exhaustion_fatal_witness :
    ensureBucket (fun _ => Except.error "conn refused") (Except.ok ()) =
      (List.range' 0 10).flatMap
        (fun i => [TraceEv.bucketCheck i, TraceEv.sleep 2]) ++
        [TraceEv.fatal ("Failed to connect to MinIO after 10 attempts: " ++ "conn refused")] ∧
    TraceEv.serveHTTP ∉
      (mainStartup (fun _ => some ()) 1
        (fun _ => Except.error "conn refused") (Except.ok ())).trace := by
  have h := bounded_retry_exhaustion_fatal (fun _ => Except.error "conn refused")
    (Except.ok ()) (fun _ => "conn refused") (fun i _ => rfl)
  exact ⟨h.1, h.2 (fun _ => some ()) 1⟩

theorem connectFrom_reaches_success (co : Nat → Option Unit) :
    ∀ k i, co (i + k) = some () → ∃ fuel, (connectFrom co i fuel).2 = true := by
  intro k
  induction k with
  | zero =>
    intro i h
    have h2 : co i = some () := by simpa using h
    exact ⟨1, by simp [connectFrom, h2]⟩
  | succ k ih =>
    intro i h
    cases hco : co i with
    | some u => exact ⟨1, by simp [connectFrom, hco]⟩
    | none =>
      have h2 : co ((i + 1) + k) = some () := by
        have : (i + 1) + k = i + (k + 1) := by omega
        rw [this]
        exact h
      obtain ⟨fuel, hf⟩ := ih (i + 1) h2
      exact ⟨fuel + 1, by simp [connectFrom, hco, hf]⟩

theorem connectFrom_all_fail (co : Nat → Option Unit) (hco : ∀ n, co n = none) :
    ∀ fuel i, connectFrom co i fuel =
      ((List.range' i fuel).flatMap
        (fun n => [TraceEv.connectAttempt n, TraceEv.sleep 2]), false) := by
  intro fuel
  induction fuel with
  | zero => intro i; simp [connectFrom]
  | succ fuel ih =>
    intro i
    simp [connectFrom, hco i, ih (i + 1), List.range'_succ]

/-- Claim C6: the connect step retries `minio.New` indefinitely with a fixed
2-second sleep between attempts and has no fatal branch. For every outcome
oracle: if some attempt succeeds, the loop exits within some finite number
of iterations with the client constructed; if every attempt fails, every
finite observation of the loop shows only attempts interleaved with
2-second sleeps, the client never constructed, and the run of `main` neither
serves requests nor terminates fatally. -/
theorem connect_retry_unbounded (co : Nat → Option Unit) :
    ((∃ n, co n = some ()) → ∃ fuel, (connectFrom co 0 fuel).2 = true) ∧
    ((∀ n, co n = none) → ∀ fuel,
      connectFrom co 0 fuel =
        ((List.range' 0 fuel).flatMap
          (fun n => [TraceEv.connectAttempt n, TraceEv.sleep 2]), false) ∧
      ∀ be mk, TraceEv.serveHTTP ∉ (mainStartup co fuel be mk).trace ∧
        ∀ m, TraceEv.fatal m ∉ (mainStartup co fuel be mk).trace) := by
  constructor
  · rintro ⟨n, hn⟩
    exact connectFrom_reaches_success co n 0 (by simpa using hn)
  · intro hco fuel
    have htr := connectFrom_all_fail co hco fuel 0
    refine ⟨htr, ?_⟩
    intro be mk
    have hc2 : (connectFrom co 0 fuel).2 = false := by rw [htr]
    constructor
    · intro hmem
      simp only [mainStartup, hc2, Bool.false_eq_true, if_false] at hmem
      exact serveHTTP_not_in_connectFrom co fuel 0 hmem
    · intro m hmem
      simp only [mainStartup, hc2, Bool.false_eq_true, if_false] at hmem
      exact fatal_not_in_connectFrom co fuel 0 m hmem

/-- Witness for C6 at concrete oracles: a constructor succeeding at attempt
2 makes the loop exit; an always-failing constructor observed for 2
iterations gives exactly two attempts with sleeps, no serving and no fatal
event. -/
theorem connect_retry_unbounded_witness :
    (∃ fuel, (connectFrom (fun n => if n = 2 then some () else none) 0 fuel).2 = true) ∧
    connectFrom (fun _ => none) 0 2 =
      ((List.range' 0 2).flatMap
        (fun n => [TraceEv.connectAttempt n, TraceEv.sleep 2]), false) ∧
    TraceEv.serveHTTP ∉
      (mainStartup (fun _ => none) 2 (fun _ => Except.ok true) (Except.ok ())).trace ∧
    TraceEv.fatal "x" ∉
      (mainStartup (fun _ => none) 2 (fun _ => Except.ok true) (Except.ok ())).trace := by
  have h1 := (connect_retry_unbounded (fun n => if n = 2 then some () else none)).1
    ⟨2, rfl⟩
  have h2 := (connect_retry_unbounded (fun _ => none)).2 (fun n => rfl) 2
  exact ⟨h1, h2.1, (h2.2 (fun _ => Except.ok true) (Except.ok ())).1,
    (h2.2 (fun _ => Except.ok true) (Except.ok ())).2 "x"⟩

/-- Claim C7: any startup that reaches the HTTP serving phase constructed a
storage client (the global is set, non-nil), verified the bucket (some check
reported it exists, or reported it absent and the creation succeeded), and
has `serveHTTP` as the last event with every initialization event strictly
before it — so in this sequential startup no handler can run before
initialization is complete. -/
theorem serving_implies_initialized (co : Nat → Option Unit) (fuel : Nat)
    (be : Nat → Except String Bool) (mk : Except String Unit)
    (h : TraceEv.serveHTTP ∈ (mainStartup co fuel be mk).trace) :
    (mainStartup co fuel be mk).clientSet = true ∧
    bucketVerified be mk ∧
    ∃ pre, (mainStartup co fuel be mk).trace = pre ++ [TraceEv.serveHTTP] ∧
      TraceEv.serveHTTP ∉ pre := by
  by_cases hc : (connectFrom co 0 fuel).2 = true
  · cases hf : (ensureBucket be mk).any TraceEv.isFatalEv with
    | true =>
      exfalso
      simp only [mainStartup, hc, if_true, hf] at h
      simp only [Bool.true_eq_false, if_false, List.mem_append] at h
      rcases h with h | h
      · exact serveHTTP_not_in_connectFrom co fuel 0 h
      · exact serveHTTP_not_in_ensureFrom be mk 10 0 h
    | false =>
      have hver : bucketVerified be mk :=
        ensureFrom_noFatal_verified be mk 10 0 (by omega) (by omega)
          (noFatal_of_any_false hf)
      have htr : (mainStartup co fuel be mk).trace =
          ((connectFrom co 0 fuel).1 ++ ensureBucket be mk) ++ [TraceEv.serveHTTP] := by
        simp [mainStartup, hc, hf]
      have hcl : (mainStartup co fuel be mk).clientSet = true := by
        simp [mainStartup, hc, hf]
      refine ⟨hcl, hver, (connectFrom co 0 fuel).1 ++ ensureBucket be mk, htr, ?_⟩
      intro hmem
      rcases List.mem_append.mp hmem with hm | hm
      · exact serveHTTP_not_in_connectFrom co fuel 0 hm
      · exact serveHTTP_not_in_ensureFrom be mk 10 0 hm
  · exfalso
    have hc2 : (connectFrom co 0 fuel).2 = false := by
      cases h2 : (connectFrom co 0 fuel).2 with
      | false => rfl
      | true => exact absurd h2 hc
    simp only [mainStartup, hc2, Bool.false_eq_true, if_false] at h
    exact serveHTTP_not_in_connectFrom co fuel 0 h

/-- Witness for C7 at a concrete run: the constructor succeeds at attempt 0
and the first check reports the bucket exists; the startup serves, the
client is set, the bucket is verified, and `serveHTTP` closes the trace. -/
theorem serving_implies_initialized_witness :
    (mainStartup (fun _ => some ()) 1 (fun _ => Except.ok true)
      (Except.ok ())).clientSet = true ∧
    bucketVerified (fun _ => Except.ok true) (Except.ok ()) ∧
    ∃ pre, (mainStartup (fun _ => some ()) 1 (fun _ => Except.ok true)
        (Except.ok ())).trace = pre ++ [TraceEv.serveHTTP] ∧
      TraceEv.serveHTTP ∉ pre :=
  serving_implies_initialized (fun _ => some ()) 1 (fun _ => Except.ok true)
    (Except.ok ()) (by decide)

end MinioFacade
